import Mathlib

/-!
Shallow embedding of the Peak-Detection-Visualization repository:
the server session registry and emission loop (`src/api/index.js`) and
the client sliding-window buffer and view projection
(`src/src/components/Chart.js`).

JS numbers that carry sensor readings are modelled as `Int` (the claims
only use selection, ordering and truthiness, never float arithmetic).
A JS value that may be `undefined` is modelled as `Option`; a JS
expression that throws is modelled as `Except String`.
-/

namespace PeakDetection

/-! ## Server side: `src/api/index.js` -/

/-- Result of the JS `Number(...)` coercion applied to the `sensor`
query parameter: either a numeric value or `NaN` (absent or
non-numeric input). -/
inductive JsNum where
  | num (n : Int)
  | nan
deriving DecidableEq, Repr

/-- An entry of `data.json`: `{ readings: [...], zScores: [...] }`. -/
structure SensorSeries where
  readings : List Int
  zScores : List Int
deriving DecidableEq, Repr

/-- The `response` object built by `getNextReading`:
`{ timestamp, value, zscore }`.  `value` and `zscore` are `Option`
because JS array indexing yields `undefined` out of range. -/
structure SResponse where
  timestamp : Nat
  value : Option Int
  zscore : Option Int
deriving DecidableEq, Repr

/-- `getNextReading(data, index)` from `src/api/index.js` lines 51-59.
`Date.now()` is passed in as `now`.  Returns `(newIndex, response)`.
(When `data.readings` is empty the JS modulus is `NaN`; every claim
about this function assumes a nonempty series.) -/
def getNextReading (data : SensorSeries) (index : Nat) (now : Nat) :
    Nat × SResponse :=
  ((index + 1) % data.readings.length,
   { timestamp := now
     value := data.readings.get? index
     zscore := data.zScores.get? index })

/-- One entry of `io.connections`: `{ sensorId, index, interval }`.
The timer handle is tracked separately in `ServerState.timerActive`. -/
structure Conn where
  sensorId : JsNum
  index : Nat
deriving DecidableEq, Repr

/-- The server-global mutable state: the registry `io.connections`
(an entry set to `undefined` is `none`, exactly as a missing key) and,
per connection id, whether its `setInterval` task is running. -/
structure ServerState where
  connections : String → Option Conn
  timerActive : String → Bool

/-- The freshly started server: `io.connections = {}`, no timers. -/
def emptyServer : ServerState :=
  { connections := fun _ => none, timerActive := fun _ => false }

/-- The `io.on('connection', ...)` handler, lines 19-28: stores
`{ sensorId, index: 0, interval: setInterval(...) }` under
`connectionId`.  `sensorId` is the already-coerced `Number(...)` of the
query parameter; the handler performs no validation on it. -/
def onConnection (st : ServerState) (connectionId : String)
    (sensorId : JsNum) : ServerState :=
  { connections := fun id =>
      if id = connectionId then some { sensorId := sensorId, index := 0 }
      else st.connections id
    timerActive := fun id =>
      if id = connectionId then true else st.timerActive id }

/-- The `socket.on('disconnect', ...)` handler, lines 30-35:
`clearInterval(io.connections[connectionId].interval)` then
`io.connections[connectionId] = undefined`.  When the registry entry is
already `undefined`, the `.interval` access throws a `TypeError`. -/
def onDisconnect (st : ServerState) (connectionId : String) :
    Except String ServerState :=
  match st.connections connectionId with
  | none => .error "TypeError: cannot read interval of undefined"
  | some _ => .ok
      { connections := fun id =>
          if id = connectionId then none else st.connections id
        timerActive := fun id =>
          if id = connectionId then false else st.timerActive id }

/-- JS array indexing `l[i]` with a possibly negative or `NaN` index:
`undefined` when out of range. -/
def jsIndex (l : List SensorSeries) (i : Int) : Option SensorSeries :=
  if i < 0 then none else l.get? i.toNat

/-- The `emitData(connectionId, socket)` firing, lines 42-48, with the
reading-source table and the clock passed in.  Reading
`conn.sensorId` of an `undefined` registry entry throws; so does
`sensorData[conn.sensorId-1].readings` when the sensor id is `NaN` or
out of range (`undefined.readings`).  On success the emitted response
is returned together with the updated state (`conn.index = newIndex`). -/
def emitData (sensorData : List SensorSeries) (st : ServerState)
    (connectionId : String) (now : Nat) :
    Except String (ServerState × SResponse) :=
  match st.connections connectionId with
  | none => .error "TypeError: cannot read sensorId of undefined"
  | some conn =>
    match conn.sensorId with
    | .nan => .error "TypeError: cannot read readings of undefined"
    | .num k =>
      match jsIndex sensorData (k - 1) with
      | none => .error "TypeError: cannot read readings of undefined"
      | some series =>
        let r := getNextReading series conn.index now
        .ok ({ st with connections := fun id =>
                 if id = connectionId then some { conn with index := r.1 }
                 else st.connections id },
             r.2)

/-- The cursor value after `j` firings of the emission loop on `data`,
starting from the initial cursor `0` (each firing replaces the cursor
by the `newIndex` of `getNextReading`). -/
def cursorAfter (data : SensorSeries) : Nat → Nat
  | 0 => 0
  | j + 1 => (getNextReading data (cursorAfter data j) 0).1

/-! ## Client side: `src/src/components/Chart.js` -/

/-- A parsed `reading` payload: `{ timestamp, value, zscore }`. -/
structure Reading where
  timestamp : Nat
  value : Int
  zscore : Int
deriving DecidableEq, Repr

/-- The dynamically typed `error` field of the component state: the
initial value and `setError` store a string, `storeReading` stores the
boolean `false`. -/
inductive ErrField where
  | str (s : String)
  | bool (b : Bool)
deriving DecidableEq, Repr

/-- The component `state` of `Chart`.  `lastTimestamp` keeps the raw
timestamp of the last stored reading (the `toLocaleTimeString`
formatting is presentation only and not modelled). -/
structure ChartState where
  data : List Reading
  lastTimestamp : Option Nat
  connected : Bool
  error : ErrField
deriving DecidableEq, Repr

/-- The initial component state, lines 26-31. -/
def initialChartState : ChartState :=
  { data := [], lastTimestamp := none, connected := false,
    error := .str "" }

def MAX_POINTS_TO_STORE : Nat := 50

def DEFAULT_X_TICKS : Nat := 20

/-- `storeReading(response)`, lines 87-104: the state-updater function.
`pointsToStore = Math.max(data.length - MAX_POINTS_TO_STORE, 0)` is
computed from the length BEFORE `data.push(reading)`; the new `data` is
`data.slice(pointsToStore)` of the pushed array.  `data[data.length-1]`
is the reading just pushed. -/
def storeReading (s : ChartState) (reading : Reading) : ChartState :=
  let data := s.data
  let pointsToStore : Int :=
    max ((data.length : Int) - (MAX_POINTS_TO_STORE : Int)) 0
  let pushed := data ++ [reading]
  { data := pushed.drop pointsToStore.toNat
    connected := true
    error := .bool false
    lastTimestamp := some reading.timestamp }

/-- `setError(type, error)`, lines 78-80: one `setState` call merging
`{ data: [], connected: false, error: error.toString() + " | " + type }`
into the state; fields not mentioned (here `lastTimestamp`) are left
unchanged by React's `setState` merge. -/
def setError (s : ChartState) (type : String) (error : String) :
    ChartState :=
  { s with data := [], connected := false,
           error := .str (error ++ " | " ++ type) }

/-- The `x-ticks` prop with the JS default:
`this.props['x-ticks'] || DEFAULT_X_TICKS` (a numeric `0` is falsy and
also falls back to the default). -/
def xTicksOrDefault (prop : Option Nat) : Nat :=
  match prop with
  | some t => if t = 0 then DEFAULT_X_TICKS else t
  | none => DEFAULT_X_TICKS

/-- The visible slice computed by `updateChart()`, lines 110-112:
`data.slice(Math.max(data.length - xTicks, 0))`. -/
def visibleData (data : List Reading) (prop : Option Nat) :
    List Reading :=
  data.drop (max ((data.length : Int) - (xTicksOrDefault prop : Int))
             0).toNat

/-- `highestValueInView = Math.max(...data.map(p => p.value))`,
line 113: the maximum of the visible values, `-Infinity` (here `⊥`)
when the visible slice is empty. -/
def highestValueInView (data : List Reading) (prop : Option Nat) :
    WithBot Int :=
  ((visibleData data prop).map Reading.value).maximum

/-- One point of the secondary z-score series. -/
structure ZPoint where
  timestamp : Nat
  value : WithBot Int
deriving DecidableEq, Repr

/-- The secondary series, line 114:
`data.map(p => ({ timestamp: p.timestamp, value: p.zscore ? highestValueInView : 0 }))`
(a numeric z-score is truthy exactly when it is nonzero). -/
def zLine (data : List Reading) (prop : Option Nat) : List ZPoint :=
  (visibleData data prop).map fun p =>
    { timestamp := p.timestamp
      value := if p.zscore ≠ (0 : Int) then highestValueInView data prop
               else (0 : WithBot Int) }

/-- The guard clauses of `componentDidMount()`, lines 34-35: throw when
the `sensorId` prop is missing, throw when the numeric `x-ticks` prop
exceeds `MAX_POINTS_TO_STORE` (a missing `x-ticks` compares as
`undefined > 50`, which is false). -/
def componentDidMountCheck (sensorId : Option String)
    (xTicks : Option Int) : Except String Unit :=
  match sensorId with
  | none => .error "You have to pass sensorId prop to Chart component"
  | some _ =>
    match xTicks with
    | some t =>
      if t > (MAX_POINTS_TO_STORE : Int) then
        .error "You cannot display more than 50 x-ticks."
      else .ok ()
    | none => .ok ()

/-! ## Helper states and sequences used by the theorems -/

/-- The component state after appending the readings
`⟨0,0,0⟩, ⟨1,0,0⟩, …, ⟨n-1,0,0⟩` via `storeReading`, starting from the
empty initial state. -/
def appendReadings (n : Nat) : ChartState :=
  (List.range n).foldl (fun s j => storeReading s ⟨j, 0, 0⟩)
    initialChartState

/-- The server state after connecting `"c1"` to sensor `1` and then
disconnecting it: the registry entry has been set back to
`undefined`. -/
def removedSessionState : ServerState :=
  match onDisconnect (onConnection emptyServer "c1" (.num 1)) "c1" with
  | .ok s => s
  | .error _ => emptyServer

/-- The server state after connecting `"c1"` to sensor `2`. -/
def connectedC1State : ServerState :=
  onConnection emptyServer "c1" (.num 2)

/-! ## Theorems for the claims -/

set_option maxRecDepth 8000 in
/-- Claim C1 (code bug in `storeReading`): the spec says the buffer
never exceeds capacity 50 and that after 51 appends the first append
has been evicted.  Because `pointsToStore` is computed from the length
BEFORE the push, the code actually keeps 51 points: after 51 appends
the buffer holds all of appends 1..51 (length 51, nothing evicted),
and it stays at length 51 from then on (after 60 appends it holds
appends 10..60). -/
theorem storeReading_buffer_reaches_51 :
    (appendReadings 51).data.length = 51 ∧
    (appendReadings 51).data = (List.range 51).map (fun j => ⟨j, 0, 0⟩) ∧
    (appendReadings 60).data.length = 51 ∧
    (appendReadings 60).data.map Reading.timestamp =
      (List.range 60).drop 9 := by
  refine ⟨by decide, by decide, by decide, by decide⟩

/-- Claim C10: `setError` clears the buffer, sets `connected := false`
and the error string in the same single state update, and leaves
`lastTimestamp` unchanged. -/
theorem setError_clears_data_keeps_lastTimestamp
    (s : ChartState) (type error : String) :
    (setError s type error).data = [] ∧
    (setError s type error).connected = false ∧
    (setError s type error).error = .str (error ++ " | " ++ type) ∧
    (setError s type error).lastTimestamp = s.lastTimestamp :=
  ⟨rfl, rfl, rfl, rfl⟩

/-- Claim C4, counterexample: the connection handler performs no
validation at all.  With an absent or non-numeric `sensor` parameter
(`Number(...)` gives `NaN`) it still creates a session (with
`sensorId = NaN`, cursor 0) and starts the periodic timer; no
`InvalidSensorError` is raised. -/
theorem onConnection_nan_creates_session :
    (onConnection emptyServer "c1" .nan).connections "c1"
      = some { sensorId := .nan, index := 0 } ∧
    (onConnection emptyServer "c1" .nan).timerActive "c1" = true := by
  refine ⟨rfl, rfl⟩

/-- Claim C4, amended: for every incoming connection and every coerced
sensor value — numeric or `NaN`, positive or not — the handler
unconditionally registers a session with cursor 0 and starts its
periodic emission task. -/
theorem onConnection_no_validation (st : ServerState) (cid : String)
    (sid : JsNum) :
    (onConnection st cid sid).connections cid
      = some { sensorId := sid, index := 0 } ∧
    (onConnection st cid sid).timerActive cid = true := by
  constructor <;> simp [onConnection]

/-- Claim C2, counterexample: after a full connect/disconnect
lifecycle the registry entry for `"c1"` is gone, and a pending
`emitData` firing for it THROWS a `TypeError` (reading `sensorId` of
`undefined`) instead of being silently dropped. -/
theorem emitData_after_disconnect_throws :
    removedSessionState.connections "c1" = none ∧
    emitData [⟨[10, 20, 30], [0, 1, 0]⟩] removedSessionState "c1" 0
      = .error "TypeError: cannot read sensorId of undefined" := by
  refine ⟨rfl, rfl⟩

/-- Claim C2, amended: a pending emission firing for a connection id
whose session has been removed throws a `TypeError`; it emits no
reading and returns no updated state (so it cannot resurrect the
session), but it is an exception, not a silent drop. -/
theorem emitData_removed_session_throws (sensorData : List SensorSeries)
    (st : ServerState) (cid : String) (now : Nat)
    (h : st.connections cid = none) :
    emitData sensorData st cid now
      = .error "TypeError: cannot read sensorId of undefined" := by
  unfold emitData
  rw [h]

/-- Witness for `emitData_removed_session_throws` at the concrete
post-disconnect state. -/
theorem emitData_removed_session_throws_witness :
    removedSessionState.connections "c1" = none ∧
    emitData [] removedSessionState "c1" 5
      = .error "TypeError: cannot read sensorId of undefined" :=
  ⟨rfl, emitData_removed_session_throws [] removedSessionState "c1" 5 rfl⟩

/-- Claim C3, counterexample: the disconnect handler invoked for an
unknown connection id is not a no-op — it throws a `TypeError`
(reading `interval` of `undefined`). -/
theorem onDisconnect_unknown_throws :
    onDisconnect emptyServer "nope"
      = .error "TypeError: cannot read interval of undefined" := rfl

/-- Claim C3, amended: when the session exists, the disconnect handler
stops its timer and removes it from the registry, leaving every other
connection id untouched; but for an unknown or already-removed
connection id it throws a `TypeError` instead of being an idempotent
no-op. -/
theorem onDisconnect_behavior (st : ServerState) (cid : String) :
    (st.connections cid = none →
      onDisconnect st cid
        = .error "TypeError: cannot read interval of undefined") ∧
    (∀ c, st.connections cid = some c →
      (onDisconnect st cid).map (fun s2 => s2.connections cid)
        = .ok none ∧
      (onDisconnect st cid).map (fun s2 => s2.timerActive cid)
        = .ok false ∧
      ∀ id, id ≠ cid →
        (onDisconnect st cid).map (fun s2 => s2.connections id)
          = .ok (st.connections id) ∧
        (onDisconnect st cid).map (fun s2 => s2.timerActive id)
          = .ok (st.timerActive id)) := by
  constructor
  · intro h
    unfold onDisconnect
    rw [h]
  · intro c hc
    unfold onDisconnect
    rw [hc]
    refine ⟨by simp [Except.map], by simp [Except.map],
      fun id hid => ⟨by simp [Except.map, hid], by simp [Except.map, hid]⟩⟩

/-- Witness for `onDisconnect_behavior`: the concrete connected state
for `"c1"` is removed and its timer stopped, an unrelated id `"zz"` is
untouched, and the unknown id `"nope"` makes the handler throw. -/
theorem onDisconnect_behavior_witness :
    (onDisconnect connectedC1State "c1").map
        (fun s2 => s2.connections "c1") = .ok none ∧
    (onDisconnect connectedC1State "c1").map
        (fun s2 => s2.timerActive "c1") = .ok false ∧
    (onDisconnect connectedC1State "c1").map
        (fun s2 => s2.connections "zz")
      = .ok (connectedC1State.connections "zz") ∧
    onDisconnect emptyServer "nope"
      = .error "TypeError: cannot read interval of undefined" :=
  ⟨((onDisconnect_behavior connectedC1State "c1").2 ⟨.num 2, 0⟩ rfl).1,
   ((onDisconnect_behavior connectedC1State "c1").2 ⟨.num 2, 0⟩ rfl).2.1,
   (((onDisconnect_behavior connectedC1State "c1").2 ⟨.num 2, 0⟩ rfl).2.2
      "zz" (by decide)).1,
   (onDisconnect_behavior emptyServer "nope").1 rfl⟩

/-- Claim C9, counterexample: the component DOES enforce the display
width: mounting with `x-ticks = 51 > 50` throws. -/
theorem xticks_over_capacity_throws :
    componentDidMountCheck (some "1") (some 51)
      = .error "You cannot display more than 50 x-ticks." := rfl

/-- Claim C9, amended: `componentDidMount` enforces the limit itself —
it throws an `Error` whenever the numeric `x-ticks` prop exceeds
`MAX_POINTS_TO_STORE` (50) and accepts any width up to 50 (and a
missing `x-ticks` prop). -/
theorem componentDidMountCheck_enforces_xticks (sid : String) (w : Int) :
    ((MAX_POINTS_TO_STORE : Int) < w →
      componentDidMountCheck (some sid) (some w)
        = .error "You cannot display more than 50 x-ticks.") ∧
    (w ≤ (MAX_POINTS_TO_STORE : Int) →
      componentDidMountCheck (some sid) (some w) = .ok ()) ∧
    componentDidMountCheck (some sid) none = .ok () := by
  refine ⟨fun h => ?_, fun h => ?_, rfl⟩
  · simp only [componentDidMountCheck]
    rw [if_pos h]
  · simp only [componentDidMountCheck]
    rw [if_neg (by omega)]

/-- Witness for `componentDidMountCheck_enforces_xticks` at widths 51
and 20. -/
theorem componentDidMountCheck_enforces_xticks_witness :
    componentDidMountCheck (some "1") (some 51)
      = .error "You cannot display more than 50 x-ticks." ∧
    componentDidMountCheck (some "1") (some 20) = .ok () :=
  ⟨(componentDidMountCheck_enforces_xticks "1" 51).1 (by decide),
   (componentDidMountCheck_enforces_xticks "1" 20).2.1 (by decide)⟩

/-- Helper: after `j` firings the cursor sits at `j` modulo the series
length. -/
theorem cursorAfter_eq_mod (data : SensorSeries) (j : Nat) :
    cursorAfter data j = j % data.readings.length := by
  induction j with
  | zero => simp [cursorAfter]
  | succ j ih => simp [cursorAfter, getNextReading, ih, Nat.add_mod]

/-- Claim C5: on a nonempty series the cursor is cyclic — after
`length(readings)` firings it returns to 0, it is periodic with period
`length(readings)`, it always stays in range (the stream never runs
off the series, hence never terminates), and the `(value, zscore)`
pair emitted one period later is identical whatever the clock says. -/
theorem cursor_cyclic_stream_repeats (data : SensorSeries)
    (h : 1 ≤ data.readings.length) :
    cursorAfter data data.readings.length = 0 ∧
    (∀ j, cursorAfter data (j + data.readings.length)
            = cursorAfter data j) ∧
    (∀ j, cursorAfter data j < data.readings.length) ∧
    (∀ j now1 now2,
      (getNextReading data
        (cursorAfter data (j + data.readings.length)) now1).2.value
        = (getNextReading data (cursorAfter data j) now2).2.value ∧
      (getNextReading data
        (cursorAfter data (j + data.readings.length)) now1).2.zscore
        = (getNextReading data (cursorAfter data j) now2).2.zscore) := by
  have hper : ∀ j, cursorAfter data (j + data.readings.length)
      = cursorAfter data j := by
    intro j
    rw [cursorAfter_eq_mod data, cursorAfter_eq_mod data,
        Nat.add_mod_right]
  refine ⟨?_, hper, ?_, ?_⟩
  · rw [cursorAfter_eq_mod data, Nat.mod_self]
  · intro j
    rw [cursorAfter_eq_mod data]
    exact Nat.mod_lt _ h
  · intro j now1 now2
    rw [hper j]
    exact ⟨rfl, rfl⟩

/-- Witness for `cursor_cyclic_stream_repeats` on the concrete series
`readings = [10,20,30]`, `zScores = [0,0,1]`. -/
theorem cursor_cyclic_stream_repeats_witness :
    cursorAfter ⟨[10, 20, 30], [0, 0, 1]⟩ 3 = 0 ∧
    cursorAfter ⟨[10, 20, 30], [0, 0, 1]⟩ (4 + 3)
      = cursorAfter ⟨[10, 20, 30], [0, 0, 1]⟩ 4 ∧
    cursorAfter ⟨[10, 20, 30], [0, 0, 1]⟩ 5 < 3 ∧
    (getNextReading ⟨[10, 20, 30], [0, 0, 1]⟩
        (cursorAfter ⟨[10, 20, 30], [0, 0, 1]⟩ (2 + 3)) 7).2.value
      = (getNextReading ⟨[10, 20, 30], [0, 0, 1]⟩
          (cursorAfter ⟨[10, 20, 30], [0, 0, 1]⟩ 2) 9).2.value := by
  have T := cursor_cyclic_stream_repeats ⟨[10, 20, 30], [0, 0, 1]⟩
    (by decide)
  exact ⟨T.1, T.2.1 4, T.2.2.1 5, (T.2.2.2 2 7 9).1⟩

/-- Claim C6: one emission firing for a registered session with
`sensorId = k` (`1 ≤ k`) and in-range cursor emits the reading built
from the `(k-1)`-th series (1-indexed convention): `value` and
`zscore` are the cursor entries of `readings` and `zScores`,
`timestamp` is the current clock, and the session cursor advances to
`(cursor + 1) mod length(readings)`; all other state is untouched. -/
theorem emitData_emits_and_advances (sensorData : List SensorSeries)
    (st : ServerState) (cid : String) (now : Nat) (k : Int)
    (conn : Conn) (series : SensorSeries) (v z : Int)
    (hc : st.connections cid = some conn)
    (hk : conn.sensorId = .num k)
    (hk1 : 1 ≤ k)
    (hs : sensorData.get? (k - 1).toNat = some series)
    (hv : series.readings.get? conn.index = some v)
    (hz : series.zScores.get? conn.index = some z) :
    emitData sensorData st cid now
      = .ok ({ st with connections := fun id =>
                 if id = cid then some { conn with
                   index := (conn.index + 1) % series.readings.length }
                 else st.connections id },
             { timestamp := now, value := some v, zscore := some z }) := by
  have hjs : jsIndex sensorData (k - 1) = some series := by
    unfold jsIndex
    rw [if_neg (by omega), hs]
  simp only [emitData, hc, hk, hjs, getNextReading, hv, hz]

/-- Witness for `emitData_emits_and_advances`: the session `"c1"`
bound to sensor 2 over a two-sensor table emits the first entry of the
second series and advances its cursor to `1 mod 2`. -/
theorem emitData_emits_and_advances_witness :
    emitData [⟨[10, 20, 30], [0, 1, 0]⟩, ⟨[7, 8], [1, 0]⟩] connectedC1State "c1" 99
      = .ok ({ connectedC1State with connections := fun id =>
                 if id = "c1"
                 then (some (Conn.mk (.num 2) ((0 + 1) % 2)))
                 else connectedC1State.connections id },
             { timestamp := 99, value := some 7, zscore := some 1 }) := by
  exact emitData_emits_and_advances
    [⟨[10, 20, 30], [0, 1, 0]⟩, ⟨[7, 8], [1, 0]⟩]
    connectedC1State "c1" 99 2 ⟨.num 2, 0⟩ ⟨[7, 8], [1, 0]⟩ 7 1
    (by decide) rfl (by decide) (by decide) rfl rfl

/-- Claim C7: with a requested width `w ≥ 1`, `updateChart` shows
exactly the last `w` buffered points (all of them when the buffer is
shorter), in their original order (the visible slice is a suffix of
the buffer), and `highestValueInView` is the true maximum value over
exactly the visible points (an upper bound that is attained). -/
theorem visibleData_last_w_and_highest (data : List Reading) (w : Nat)
    (hw : 1 ≤ w) :
    visibleData data (some w) = data.drop (data.length - w) ∧
    (visibleData data (some w)).length = min w data.length ∧
    data.take (data.length - w) ++ visibleData data (some w) = data ∧
    (∀ p ∈ visibleData data (some w),
      (p.value : WithBot Int) ≤ highestValueInView data (some w)) ∧
    (data ≠ [] → ∃ p ∈ visibleData data (some w),
      highestValueInView data (some w) = (p.value : WithBot Int)) := by
  have hxt : xTicksOrDefault (some w) = w := by
    simp only [xTicksOrDefault]
    rw [if_neg (by omega)]
  have hdrop : visibleData data (some w) = data.drop (data.length - w) := by
    unfold visibleData
    rw [hxt]
    congr 1
    omega
  refine ⟨hdrop, ?_, ?_, ?_, ?_⟩
  · rw [hdrop, List.length_drop]
    omega
  · rw [hdrop]
    exact List.take_append_drop _ _
  · intro p hp
    exact List.le_maximum_of_mem' (List.mem_map_of_mem Reading.value hp)
  · intro hne
    have hlen : 0 < (visibleData data (some w)).length := by
      rw [hdrop, List.length_drop]
      have : data.length ≠ 0 := fun hc => hne (List.length_eq_zero.mp hc)
      omega
    have hmapne : (visibleData data (some w)).map Reading.value ≠ [] := by
      intro hc
      rw [List.map_eq_nil] at hc
      rw [hc] at hlen
      simp at hlen
    obtain ⟨m, hm⟩ := WithBot.ne_bot_iff_exists.mp
      (List.maximum_ne_bot_of_ne_nil hmapne)
    obtain ⟨p, hp, hpv⟩ := List.mem_map.mp (List.maximum_mem hm.symm)
    exact ⟨p, hp, by rw [highestValueInView, ← hm, ← hpv]⟩

/-- Witness for `visibleData_last_w_and_highest` with a three-point
buffer and width 2: the visible slice is the last two points and the
highest value is 9, attained at the middle point. -/
theorem visibleData_last_w_and_highest_witness :
    visibleData [⟨0, 5, 0⟩, ⟨1, 9, 1⟩, ⟨2, 7, 0⟩] (some 2)
      = [⟨0, 5, 0⟩, ⟨1, 9, 1⟩, ⟨2, 7, 0⟩].drop 1 ∧
    (visibleData [⟨0, 5, 0⟩, ⟨1, 9, 1⟩, ⟨2, 7, 0⟩] (some 2)).length
      = min 2 3 ∧
    (((⟨1, 9, 1⟩ : Reading).value : WithBot Int)
      ≤ highestValueInView [⟨0, 5, 0⟩, ⟨1, 9, 1⟩, ⟨2, 7, 0⟩] (some 2)) ∧
    (∃ p ∈ visibleData [⟨0, 5, 0⟩, ⟨1, 9, 1⟩, ⟨2, 7, 0⟩] (some 2),
      highestValueInView [⟨0, 5, 0⟩, ⟨1, 9, 1⟩, ⟨2, 7, 0⟩] (some 2)
        = (p.value : WithBot Int)) := by
  have T := visibleData_last_w_and_highest
    [⟨0, 5, 0⟩, ⟨1, 9, 1⟩, ⟨2, 7, 0⟩] 2 (by decide)
  exact ⟨T.1, T.2.1, T.2.2.2.1 ⟨1, 9, 1⟩ (by decide),
    T.2.2.2.2 (by decide)⟩

/-- Claim C8: the secondary z-score series has one point per visible
point, carries the same timestamps, and each of its values is the
binary peak indicator — `highestValueInView` when the point's z-score
is truthy, `0` when it is not; in particular every value of the
secondary series is either `0` or the maximum visible value, never the
z-score magnitude itself. -/
theorem zLine_binary_peak_indicator (data : List Reading)
    (prop : Option Nat) (i : Nat) (p : Reading)
    (hp : (visibleData data prop).get? i = some p) :
    (zLine data prop).length = (visibleData data prop).length ∧
    (zLine data prop).get? i = some
      { timestamp := p.timestamp
        value := if p.zscore ≠ (0 : Int)
                 then highestValueInView data prop else 0 } ∧
    (∀ q ∈ zLine data prop,
      q.value = 0 ∨ q.value = highestValueInView data prop) := by
  refine ⟨by simp [zLine], ?_, ?_⟩
  · rw [zLine, List.get?_map, hp]
    rfl
  · intro q hq
    rw [zLine, List.mem_map] at hq
    obtain ⟨p2, _, rfl⟩ := hq
    by_cases hz : p2.zscore = (0 : Int)
    · left
      simp [hz]
    · right
      simp [hz]

/-- Witness for `zLine_binary_peak_indicator` on a three-point buffer
with width 2: the first visible point has z-score 2 (truthy), so its
secondary value is the highest visible value. -/
theorem zLine_binary_peak_indicator_witness :
    (zLine [⟨0, 5, 0⟩, ⟨1, 9, 2⟩, ⟨2, 7, 0⟩] (some 2)).length
      = (visibleData [⟨0, 5, 0⟩, ⟨1, 9, 2⟩, ⟨2, 7, 0⟩] (some 2)).length ∧
    (zLine [⟨0, 5, 0⟩, ⟨1, 9, 2⟩, ⟨2, 7, 0⟩] (some 2)).get? 0 = some
      { timestamp := 1
        value := if (2 : Int) ≠ (0 : Int)
                 then highestValueInView
                   [⟨0, 5, 0⟩, ⟨1, 9, 2⟩, ⟨2, 7, 0⟩] (some 2)
                 else 0 } := by
  have T := zLine_binary_peak_indicator
    [⟨0, 5, 0⟩, ⟨1, 9, 2⟩, ⟨2, 7, 0⟩] (some 2) 0 ⟨1, 9, 2⟩ (by decide)
  exact ⟨T.1, T.2.1⟩

end PeakDetection
